import Mathlib

/-!
Verification of the markdown-to-html core: the document assembler
(`StandardHtmlBuilder`), the block parser (`Diretor`), and the inline
renderer (`render_inline`), embedded shallowly from the Python sources.
-/

/-- The two error kinds the core raises: Python `RuntimeError` (invalid
lifecycle state) and `ValueError` (heading level out of range). -/
inductive Err where
  | runtimeError (msg : String)
  | valueError (msg : String)
deriving DecidableEq, Repr

/-- State of `StandardHtmlBuilder`.  A fresh Python object has none of the
underscore attributes set; every guarded access uses `getattr(_, _, False)`,
so the fresh object behaves exactly like this record with all fields at
their defaults. -/
structure Builder where
  doc_started : Bool := false
  doc_ended : Bool := false
  fragments : List String := []
  list_open : Bool := false
  explicit_title : Option String := none
  first_h1_title : Option String := none
deriving DecidableEq, Repr

/-- A freshly constructed `StandardHtmlBuilder()`. -/
def Builder.init : Builder := {}

/-- The f-string `f"<h{level}>{text}</h{level}>\n"`. -/
def headingFrag (level : Int) (text : String) : String :=
  "<h" ++ toString level ++ ">" ++ text ++ "</h" ++ toString level ++ ">\n"

/-- The f-string `f"<li>{text}</li>\n"`. -/
def listItemFrag (text : String) : String :=
  "<li>" ++ text ++ "</li>\n"

/-- The f-string `f"<p>{text}</p>\n"`. -/
def paragraphFrag (text : String) : String :=
  "<p>" ++ text ++ "</p>\n"

/-- `StandardHtmlBuilder.start_document(title)`: unconditionally resets
every field.  `title` defaults to `None` in Python; an explicit `""` is a
non-`None` value and is stored as the explicit title. -/
def start_document (_b : Builder) (title : Option String) : Builder :=
  { doc_started := true
    doc_ended := false
    fragments := []
    list_open := false
    explicit_title := title
    first_h1_title := none }

/-- `StandardHtmlBuilder.end_document()`. -/
def end_document (b : Builder) : Except Err Builder :=
  if b.doc_started = false then .error (.runtimeError "document not started")
  else if b.doc_ended = true then .error (.runtimeError "document already ended")
  else
    let b1 := if b.list_open = true then
        { b with fragments := b.fragments ++ ["</ul>\n"], list_open := false }
      else b
    .ok { b1 with doc_ended := true }

/-- `StandardHtmlBuilder.add_heading(text, level)`: state checks, then the
range check, then first-H1 capture, then list auto-close, then append. -/
def add_heading (b : Builder) (text : String) (level : Int) : Except Err Builder :=
  if b.doc_started = false then .error (.runtimeError "document not started")
  else if b.doc_ended = true then .error (.runtimeError "document already ended")
  else if ¬ (1 ≤ level ∧ level ≤ 6) then
    .error (.valueError "heading level must be between 1 and 6")
  else
    let b1 := if level = 1 ∧ b.first_h1_title = none ∧ b.explicit_title = none then
        { b with first_h1_title := some text }
      else b
    let b2 := if b1.list_open = true then
        { b1 with fragments := b1.fragments ++ ["</ul>\n"], list_open := false }
      else b1
    .ok { b2 with fragments := b2.fragments ++ [headingFrag level text] }

/-- `StandardHtmlBuilder.start_list()`. -/
def start_list (b : Builder) : Except Err Builder :=
  if b.doc_started = false then .error (.runtimeError "document not started")
  else if b.doc_ended = true then .error (.runtimeError "document already ended")
  else if b.list_open = true then .error (.runtimeError "list already open")
  else .ok { b with fragments := b.fragments ++ ["<ul>\n"], list_open := true }

/-- `StandardHtmlBuilder.add_list_item(text)`. -/
def add_list_item (b : Builder) (text : String) : Except Err Builder :=
  if b.doc_started = false then .error (.runtimeError "document not started")
  else if b.doc_ended = true then .error (.runtimeError "document already ended")
  else if b.list_open = false then .error (.runtimeError "no open list to add item")
  else .ok { b with fragments := b.fragments ++ [listItemFrag text] }

/-- `StandardHtmlBuilder.end_list()`. -/
def end_list (b : Builder) : Except Err Builder :=
  if b.doc_started = false then .error (.runtimeError "document not started")
  else if b.doc_ended = true then .error (.runtimeError "document already ended")
  else if b.list_open = false then .error (.runtimeError "no open list to end")
  else .ok { b with fragments := b.fragments ++ ["</ul>\n"], list_open := false }

/-- `StandardHtmlBuilder.add_paragraph(text)`. -/
def add_paragraph (b : Builder) (text : String) : Except Err Builder :=
  if b.doc_started = false then .error (.runtimeError "document not started")
  else if b.doc_ended = true then .error (.runtimeError "document already ended")
  else
    let b1 := if b.list_open = true then
        { b with fragments := b.fragments ++ ["</ul>\n"], list_open := false }
      else b
    .ok { b1 with fragments := b1.fragments ++ [paragraphFrag text] }

/-- Python `"".join(fragments)`. -/
def joinFrags (fs : List String) : String := fs.foldl (fun a f => a ++ f) ""

/-- `StandardHtmlBuilder.get_body()`: read-only, requires a started document. -/
def get_body (b : Builder) : Except Err String :=
  if b.doc_started = false then .error (.runtimeError "document not started")
  else .ok (joinFrags b.fragments)

/-- Title resolution for the full page: explicit title if set, else the
captured first H1, else the fixed fallback literal. -/
def resolved_title (b : Builder) : String :=
  match b.explicit_title with
  | some t => t
  | none =>
    match b.first_h1_title with
    | some t => t
    | none => "Document"

/-- The fixed full-document shell around a title and a body. -/
def page_shell (title body : String) : String :=
  "<!DOCTYPE html>\n<html>\n<head>\n<meta charset=\"utf-8\">\n<title>"
    ++ title ++ "</title>\n</head>\n<body>\n" ++ body ++ "</body>\n</html>\n"

/-- Modelled from the spec: the concrete body of
`StandardHtmlBuilder.get_full_page` is absent from the sources (only the
abstract declaration in `HTMLBuilder` and the test suite mention it).
Per the spec it requires a started document (invalid-state error
otherwise, which the tests pin to the message "document not started"),
and wraps `get_body()`'s output in the fixed shell — doctype, `<html>`,
`<head>` with a UTF-8 charset meta tag and the resolved `<title>`,
`<body>`, closing tags — without mutating any state. -/
def get_full_page (b : Builder) : Except Err String :=
  if b.doc_started = false then .error (.runtimeError "document not started")
  else .ok (page_shell (resolved_title b) (joinFrags b.fragments))

/-! ### Inline renderer (`utils/inline.py`) -/

/-- The whitespace characters of Python `str.strip()` / regex `\s`
(ASCII range, which is all the sources exercise). -/
def pyIsSpace (c : Char) : Bool :=
  c == ' ' || c == '\t' || c == '\n' || c == '\r' || c == '\x0b' || c == '\x0c'

/-- Left-to-right, non-overlapping replacement of the literal character
sequence `pat` by `repl`, as Python `str.replace` / `re.sub` on a literal
pattern do (the replacement is not rescanned).  Fuel-driven; one character
of the input is consumed per step, so fuel = input length is always
enough. -/
def replaceSeqAux (pat repl : List Char) : Nat → List Char → List Char
  | 0, cs => cs
  | _ + 1, [] => []
  | fuel + 1, c :: cs =>
    if pat.isPrefixOf (c :: cs) then
      repl ++ replaceSeqAux pat repl fuel ((c :: cs).drop pat.length)
    else
      c :: replaceSeqAux pat repl fuel cs

/-- `replaceSeqAux` with adequate fuel. -/
def replaceSeq (pat repl cs : List Char) : List Char :=
  replaceSeqAux pat repl cs.length cs

/-- Lazy (non-greedy) search for the closing marker `m` after at least one
content character, as `(.+?)` followed by the marker does: consume one
non-newline character, then at each position first try to close, else
consume another non-newline character.  Returns the (shortest) content and
the text after the closing marker. -/
def scanContent (m : List Char) : List Char → Option (List Char × List Char)
  | [] => none
  | c :: cs =>
    if c = '\n' then none
    else if m.isPrefixOf cs then some ([c], cs.drop m.length)
    else
      match scanContent m cs with
      | some (content, rest) => some (c :: content, rest)
      | none => none

/-- One `re.sub` pass for a pattern `m(.+?)m` with replacement
`op\1cl`: scan left to right; at a position where the opening marker
matches and a lazy close is found, emit `op ++ content ++ cl` and resume
after the match; otherwise emit one character and advance. -/
def subMarkerAux (m op cl : List Char) : Nat → List Char → List Char
  | 0, cs => cs
  | _ + 1, [] => []
  | fuel + 1, c :: cs =>
    if m.isPrefixOf (c :: cs) then
      match scanContent m ((c :: cs).drop m.length) with
      | some (content, rest) => op ++ content ++ cl ++ subMarkerAux m op cl fuel rest
      | none => c :: subMarkerAux m op cl fuel cs
    else
      c :: subMarkerAux m op cl fuel cs

/-- `subMarkerAux` with adequate fuel. -/
def subMarker (m op cl cs : List Char) : List Char :=
  subMarkerAux m op cl cs.length cs

/-- The sentinel `"\x01AST\x02"` protecting escaped asterisks. -/
def astSent : List Char := "\x01AST\x02".toList

/-- The sentinel `"\x01TRI_OPEN\x02"`. -/
def trOpenS : List Char := "\x01TRI_OPEN\x02".toList

/-- The sentinel `"\x01TRI_CLOSE\x02"`. -/
def trCloseS : List Char := "\x01TRI_CLOSE\x02".toList

/-- The sentinel `"\x01B_OPEN\x02"`. -/
def dbOpenS : List Char := "\x01B_OPEN\x02".toList

/-- The sentinel `"\x01B_CLOSE\x02"`. -/
def dbCloseS : List Char := "\x01B_CLOSE\x02".toList

/-- The sentinel `"\x01I_OPEN\x02"`. -/
def sgOpenS : List Char := "\x01I_OPEN\x02".toList

/-- The sentinel `"\x01I_CLOSE\x02"`. -/
def sgCloseS : List Char := "\x01I_CLOSE\x02".toList

/-- `render_inline` from `utils/inline.py`: protect `\*`, substitute the
three marker forms by precedence (`***`, then `**`, then `*`) with
placeholder sentinels, HTML-escape `&`, `<`, `>` in the remaining text,
materialise the placeholder tags, and restore literal asterisks. -/
def render_inline (text : String) : String :=
  if text = "" then ""
  else
    let s := text.toList
    let s := replaceSeq ['\\', '*'] astSent s
    let s := subMarker ['*', '*', '*'] trOpenS trCloseS s
    let s := subMarker ['*', '*'] dbOpenS dbCloseS s
    let s := subMarker ['*'] sgOpenS sgCloseS s
    let s := replaceSeq ['&'] "&amp;".toList s
    let s := replaceSeq ['<'] "&lt;".toList s
    let s := replaceSeq ['>'] "&gt;".toList s
    let s := replaceSeq trOpenS "<strong><em>".toList s
    let s := replaceSeq trCloseS "</em></strong>".toList s
    let s := replaceSeq dbOpenS "<strong>".toList s
    let s := replaceSeq dbCloseS "</strong>".toList s
    let s := replaceSeq sgOpenS "<em>".toList s
    let s := replaceSeq sgCloseS "</em>".toList s
    let s := replaceSeq astSent ['*'] s
    String.mk s

/-! ### Block parser (`Diretor`, `markdown_to_html/director/diretor.py`) -/

/-- Python `line.rstrip("\n")`: drop every trailing newline character. -/
def stripTrailNL (s : String) : String :=
  String.mk ((s.toList.reverse.dropWhile (fun c => c == '\n')).reverse)

/-- Python `s.lstrip()`. -/
def pyLstrip (s : String) : String :=
  String.mk (s.toList.dropWhile pyIsSpace)

/-- Python `s.strip()`. -/
def pyStrip (s : String) : String :=
  String.mk (((s.toList.dropWhile pyIsSpace).reverse.dropWhile pyIsSpace).reverse)

/-- `Diretor._RE_HEADING.match(view)` for `^(#{1,6})\s+(.*)$`: the greedy
`#{1,6}` with backtracking succeeds exactly when the maximal leading run
of 1 to 6 `#` characters is followed by at least one whitespace character
(for a shorter run the next character is another `#`, never whitespace).
Group 2 is the remainder after the maximal whitespace run and may be
empty, since the text group is `(.*)`. -/
def matchHeading (s : String) : Option (Nat × String) :=
  let cs := s.toList
  let k := (cs.takeWhile (fun c => c == '#')).length
  if 1 ≤ k ∧ k ≤ 6 then
    match cs.drop k with
    | [] => none
    | c :: rest =>
      if pyIsSpace c then some (k, String.mk ((c :: rest).dropWhile pyIsSpace))
      else none
  else none

/-- `Diretor._RE_LIST.match(view)` for `^[-*]\s+(.*)$`: a leading `-` or
`*`, at least one whitespace character, and a possibly empty remainder
(after the maximal whitespace run). -/
def matchList (s : String) : Option String :=
  match s.toList with
  | c :: d :: rest =>
    if (c == '-' || c == '*') && pyIsSpace d then
      some (String.mk ((d :: rest).dropWhile pyIsSpace))
    else none
  | _ => none

/-- The `Diretor`'s mutable state: the driven builder and its `in_list`
flag (initialised `False` in `__init__`). -/
structure DirState where
  builder : Builder
  in_list : Bool
deriving DecidableEq, Repr

/-- `Diretor._close_list_if_open()`. -/
def close_list_if_open (d : DirState) : Except Err DirState :=
  if d.in_list = true then
    match end_list d.builder with
    | .ok b => .ok ⟨b, false⟩
    | .error e => .error e
  else .ok d

/-- One iteration of the `parse_lines` loop: strip the trailing newline,
dispatch on blank / heading / list item / paragraph, rendering inline
markup on the emitted text. -/
def handle_line (d : DirState) (raw : String) : Except Err DirState :=
  let line := stripTrailNL raw
  if pyStrip line = "" then close_list_if_open d
  else
    let view := pyLstrip line
    match matchHeading view with
    | some (lvl, txt) =>
      match close_list_if_open d with
      | .error e => .error e
      | .ok d1 =>
        match add_heading d1.builder (render_inline (pyStrip txt)) (Int.ofNat lvl) with
        | .ok b => .ok ⟨b, d1.in_list⟩
        | .error e => .error e
    | none =>
      match matchList view with
      | some txt =>
        let t := render_inline (pyStrip txt)
        if d.in_list = true then
          match add_list_item d.builder t with
          | .ok b => .ok ⟨b, true⟩
          | .error e => .error e
        else
          match start_list d.builder with
          | .error e => .error e
          | .ok b1 =>
            match add_list_item b1 t with
            | .ok b2 => .ok ⟨b2, true⟩
            | .error e => .error e
      | none =>
        match close_list_if_open d with
        | .error e => .error e
        | .ok d1 =>
          match add_paragraph d1.builder (render_inline (pyStrip view)) with
          | .ok b => .ok ⟨b, d1.in_list⟩
          | .error e => .error e

/-- The `for raw_line in lines` loop of `parse_lines`. -/
def runLines (d : DirState) : List String → Except Err DirState
  | [] => .ok d
  | l :: ls =>
    match handle_line d l with
    | .ok d2 => runLines d2 ls
    | .error e => .error e

/-- `Diretor.parse_lines(lines)` driven by a fresh `Diretor` holding the
given builder: `start_document(title=None)`, the line loop, the final
`_close_list_if_open()`, then `end_document()`.  Returns the builder. -/
def parse_lines (b0 : Builder) (lines : List String) : Except Err Builder :=
  match runLines ⟨start_document b0 none, false⟩ lines with
  | .error e => .error e
  | .ok d =>
    match close_list_if_open d with
    | .error e => .error e
    | .ok d2 => end_document d2.builder

/-- Python `str.splitlines()` restricted to `"\n"` terminators (the only
terminator the claims exercise): split at newlines, with no trailing
empty line when the text ends in a newline, and no line for `""`. -/
def splitNLAux (acc : List Char) : List Char → List (List Char)
  | [] => [acc.reverse]
  | c :: rest =>
    if c == '\n' then
      if rest.isEmpty then [acc.reverse]
      else acc.reverse :: splitNLAux [] rest
    else splitNLAux (c :: acc) rest

/-- `text.splitlines()`. -/
def pySplitlines (s : String) : List String :=
  if s = "" then [] else (splitNLAux [] s.toList).map String.mk

/-- `Diretor.parse_text(text)`: `parse_lines(text.splitlines())`. -/
def parse_text (b0 : Builder) (text : String) : Except Err Builder :=
  parse_lines b0 (pySplitlines text)

/-! ### Operation sequences and the list-nesting invariant -/

/-- The content-mutating operations of the assembler that are available
after `start_document` (re-`start` excluded: it resets the state). -/
inductive Op where
  | heading (text : String) (level : Int)
  | listStart
  | item (text : String)
  | listEnd
  | para (text : String)
  | docEnd
deriving DecidableEq, Repr

/-- Dispatch one operation on the builder. -/
def applyOp (b : Builder) : Op → Except Err Builder
  | .heading t l => add_heading b t l
  | .listStart => start_list b
  | .item t => add_list_item b t
  | .listEnd => end_list b
  | .para t => add_paragraph b t
  | .docEnd => end_document b

/-- The state after attempting one operation: every operation performs all
of its checks before its first mutation, so a raised error leaves the
Python object unchanged. -/
def stepOp (b : Builder) (op : Op) : Builder :=
  match applyOp b op with
  | .ok b2 => b2
  | .error _ => b

/-- The state after attempting a sequence of operations. -/
def runOps (b : Builder) (ops : List Op) : Builder :=
  ops.foldl stepOp b

/-- Classify a fragment as a list-open marker (`some true`), a list-close
marker (`some false`), or neither. -/
def fragMark (f : String) : Option Bool :=
  if f = "<ul>\n" then some true
  else if f = "</ul>\n" then some false
  else none

/-- The subsequence of list markers in a fragment sequence. -/
def marks (fs : List String) : List Bool :=
  fs.filterMap fragMark

/-- Walk a marker sequence from a list-openness state: an open marker is
legal only while closed and a close marker only while open, so a legal
sequence strictly alternates; returns the final openness, or `none` if
two like markers appear without the other in between. -/
def chainFrom : Bool → List Bool → Option Bool
  | o, [] => some o
  | o, m :: ms => if m = o then none else chainFrom m ms

/-- The list-nesting invariant: the markers in `fragments` alternate
starting from the closed state and end in the state recorded by
`list_open`. -/
def listInv (b : Builder) : Prop :=
  chainFrom false (marks b.fragments) = some b.list_open

/-- Decidable equality on `Except`, for settling concrete runs. -/
instance {ε α : Type} [DecidableEq ε] [DecidableEq α] : DecidableEq (Except ε α)
  | .ok a, .ok b => decidable_of_iff (a = b) (by simp)
  | .error e, .error f => decidable_of_iff (e = f) (by simp)
  | .ok _, .error _ => isFalse (fun h => Except.noConfusion h)
  | .error _, .ok _ => isFalse (fun h => Except.noConfusion h)

/-! ### Claim theorems: concrete scenarios -/

/-- C2: Driving the block parser on the text `"- a\n- b\n\nafter\n"` with a
fresh assembler appends, in order, the list-open fragment, the two item
fragments, the list-close fragment (at the blank line), and the paragraph
fragment, and the resulting body is exactly
`"<ul>\n<li>a</li>\n<li>b</li>\n</ul>\n<p>after</p>\n"`. -/
theorem parse_listParagraph_scenario :
    (parse_text Builder.init "- a\n- b\n\nafter\n").map Builder.fragments =
      .ok ["<ul>\n", "<li>a</li>\n", "<li>b</li>\n", "</ul>\n", "<p>after</p>\n"]
    ∧ (parse_text Builder.init "- a\n- b\n\nafter\n").bind get_body =
      .ok "<ul>\n<li>a</li>\n<li>b</li>\n</ul>\n<p>after</p>\n" := by
  constructor <;> decide

/-- C6: the inline renderer maps the five fixed inputs of the spec to
their exact outputs: bold, italic, bold-italic, ampersand escaping, and
backslash-escaped asterisks restored as literals with no emphasis tags. -/
theorem render_inline_fixed_examples :
    render_inline "**bold**" = "<strong>bold</strong>"
    ∧ render_inline "*it*" = "<em>it</em>"
    ∧ render_inline "***both***" = "<strong><em>both</em></strong>"
    ∧ render_inline "a & b" = "a &amp; b"
    ∧ render_inline "\\*lit\\*" = "*lit*" := by
  refine ⟨?_, ?_, ?_, ?_, ?_⟩ <;> decide

/-- C7: the inline renderer is embedded as a plain total function (the
source raises nothing); the empty string yields the empty string, and
emphasis markers with no closing counterpart are left in the output as
literal asterisks. -/
theorem render_inline_total_edge_cases :
    (∀ s : String, s = "" → render_inline s = "")
    ∧ render_inline "*abc" = "*abc"
    ∧ render_inline "**abc" = "**abc"
    ∧ render_inline "abc*" = "abc*"
    ∧ render_inline "a ** b" = "a ** b" := by
  refine ⟨?_, ?_, ?_, ?_, ?_⟩
  · intro s hs; rw [hs]; decide
  all_goals decide

/-- Witness for C7 at the concrete input `""`. -/
theorem render_inline_total_edge_cases_witness : render_inline "" = "" :=
  render_inline_total_edge_cases.1 "" rfl

/-- C9, counterexample: the line `"# "` (one `#` followed by whitespace and
no text) is classified by the block parser as a heading with empty text
(the source pattern `^(#{1,6})\s+(.*)$` allows an empty text group), not
as a paragraph: the produced fragment is `"<h1></h1>\n"`, not
`"<p>#</p>\n"`. -/
theorem hashOnly_line_is_heading_not_paragraph :
    (parse_lines Builder.init ["# "]).map Builder.fragments = .ok ["<h1></h1>\n"]
    ∧ (parse_lines Builder.init ["# "]).map Builder.fragments ≠ .ok ["<p>#</p>\n"] := by
  constructor <;> decide

/-! ### Claim theorems: lifecycle and full-page properties -/

/-- C1: for every assembler whose document has been started (lifecycle not
`NotStarted`), `get_full_page` returns `get_body`'s output wrapped in the
fixed full-document shell, with the title resolved as the explicit title
if set, else the captured first H1, else the literal `"Document"`. -/
theorem get_full_page_shell (b : Builder) (h : b.doc_started = true) :
    ∃ body title,
      get_body b = .ok body
      ∧ get_full_page b = .ok (page_shell title body)
      ∧ (∀ t, b.explicit_title = some t → title = t)
      ∧ (b.explicit_title = none → ∀ t, b.first_h1_title = some t → title = t)
      ∧ (b.explicit_title = none → b.first_h1_title = none → title = "Document") := by
  use joinFrags b.fragments, resolved_title b
  refine ⟨?_, ?_, ?_, ?_, ?_⟩
  · simp [get_body, h]
  · simp [get_full_page, h]
  · intro t ht; simp [resolved_title, ht]
  · intro he t ht; simp [resolved_title, he, ht]
  · intro he hf; simp [resolved_title, he, hf]

/-- Witness for C1 at the started assembler `start_document Builder.init none`. -/
theorem get_full_page_shell_witness :
    ∃ body title,
      get_body (start_document Builder.init none) = .ok body
      ∧ get_full_page (start_document Builder.init none) = .ok (page_shell title body)
      ∧ (∀ t, (start_document Builder.init none).explicit_title = some t → title = t)
      ∧ ((start_document Builder.init none).explicit_title = none →
          ∀ t, (start_document Builder.init none).first_h1_title = some t → title = t)
      ∧ ((start_document Builder.init none).explicit_title = none →
          (start_document Builder.init none).first_h1_title = none → title = "Document") :=
  get_full_page_shell (start_document Builder.init none) rfl

/-- C8: `add_heading` performs the lifecycle-state checks before the
level-range check — before `start_document` it raises the invalid-state
error even for an out-of-range level, and a range error (`ValueError`
with the fixed message) occurs exactly when the document is open and the
level is outside `1..6`. -/
theorem add_heading_check_order (b : Builder) (t : String) (l : Int) :
    (b.doc_started = false → add_heading b t l = .error (.runtimeError "document not started"))
    ∧ (b.doc_started = true → b.doc_ended = true →
        add_heading b t l = .error (.runtimeError "document already ended"))
    ∧ (b.doc_started = true → b.doc_ended = false → ¬(1 ≤ l ∧ l ≤ 6) →
        add_heading b t l = .error (.valueError "heading level must be between 1 and 6"))
    ∧ ((∃ m, add_heading b t l = .error (.valueError m)) ↔
        (b.doc_started = true ∧ b.doc_ended = false ∧ ¬(1 ≤ l ∧ l ≤ 6))) := by
  refine ⟨fun h => ?_, fun h1 h2 => ?_, fun h1 h2 h3 => ?_, ?_, ?_⟩
  · simp [add_heading, h]
  · simp [add_heading, h1, h2]
  · simp [add_heading, h1, h2, h3]
  · rintro ⟨m, hm⟩
    by_cases h1 : b.doc_started = false
    · simp [add_heading, h1] at hm
    · by_cases h2 : b.doc_ended = true
      · simp [add_heading, h1, h2] at hm
      · by_cases h3 : 1 ≤ l ∧ l ≤ 6
        · simp [add_heading, h1, h2, h3] at hm
        · exact ⟨by simpa using h1, by simpa using h2, h3⟩
  · rintro ⟨h1, h2, h3⟩
    exact ⟨"heading level must be between 1 and 6", by simp [add_heading, h1, h2, h3]⟩

/-- Witness for C8: with level `9`, a fresh assembler raises the
invalid-state error and an open one raises the range error. -/
theorem add_heading_check_order_witness :
    add_heading Builder.init "x" 9 = .error (.runtimeError "document not started")
    ∧ add_heading (start_document Builder.init none) "x" 9 =
        .error (.valueError "heading level must be between 1 and 6") :=
  ⟨(add_heading_check_order Builder.init "x" 9).1 rfl,
   (add_heading_check_order (start_document Builder.init none) "x" 9).2.2.1 rfl rfl (by decide)⟩

/-- C3: every content-mutating operation invoked before `start_document`
or after `end_document` fails with the fixed precondition-specific
invalid-state message, for every text and level argument; the two read
accessors succeed on every started document (open or ended) and fail with
the invalid-state error before `start_document`. -/
theorem lifecycle_guards (b : Builder) (t : String) (l : Int) :
    (b.doc_started = false →
      add_heading b t l = .error (.runtimeError "document not started")
      ∧ start_list b = .error (.runtimeError "document not started")
      ∧ add_list_item b t = .error (.runtimeError "document not started")
      ∧ end_list b = .error (.runtimeError "document not started")
      ∧ add_paragraph b t = .error (.runtimeError "document not started")
      ∧ end_document b = .error (.runtimeError "document not started")
      ∧ get_body b = .error (.runtimeError "document not started")
      ∧ get_full_page b = .error (.runtimeError "document not started"))
    ∧ (b.doc_started = true → b.doc_ended = true →
      add_heading b t l = .error (.runtimeError "document already ended")
      ∧ start_list b = .error (.runtimeError "document already ended")
      ∧ add_list_item b t = .error (.runtimeError "document already ended")
      ∧ end_list b = .error (.runtimeError "document already ended")
      ∧ add_paragraph b t = .error (.runtimeError "document already ended")
      ∧ end_document b = .error (.runtimeError "document already ended"))
    ∧ (b.doc_started = true →
      (∃ s, get_body b = .ok s) ∧ (∃ s, get_full_page b = .ok s)) := by
  refine ⟨fun h => ?_, fun h1 h2 => ?_, fun h => ?_⟩
  · simp [add_heading, start_list, add_list_item, end_list, add_paragraph,
      end_document, get_body, get_full_page, h]
  · simp [add_heading, start_list, add_list_item, end_list, add_paragraph,
      end_document, h1, h2]
  · exact ⟨⟨joinFrags b.fragments, by simp [get_body, h]⟩,
      ⟨page_shell (resolved_title b) (joinFrags b.fragments), by simp [get_full_page, h]⟩⟩

/-- Witness for C3: a fresh assembler, an ended assembler, and an open
assembler, each at a concrete state. -/
theorem lifecycle_guards_witness :
    add_heading Builder.init "x" 2 = .error (.runtimeError "document not started")
    ∧ end_document { Builder.init with doc_started := true, doc_ended := true } =
        .error (.runtimeError "document already ended")
    ∧ ∃ s, get_body (start_document Builder.init none) = .ok s :=
  ⟨((lifecycle_guards Builder.init "x" 2).1 rfl).1,
   ((lifecycle_guards { Builder.init with doc_started := true, doc_ended := true } "x" 2).2.1
      rfl rfl).2.2.2.2.2,
   ((lifecycle_guards (start_document Builder.init none) "x" 2).2.2 rfl).1⟩

/-! ### First-H1 capture -/

/-- Every operation other than `start_document` leaves the explicit title
unchanged. -/
theorem stepOp_explicit_title (b : Builder) (op : Op) :
    (stepOp b op).explicit_title = b.explicit_title := by
  cases op <;>
    simp only [stepOp, applyOp, add_heading, start_list, add_list_item, end_list,
      add_paragraph, end_document] <;>
    split_ifs <;> rfl

/-- Exact effect of one operation on `first_h1_title`: a successful
level-1 heading captures its text when neither title is present, and
nothing else ever touches the field. -/
theorem stepOp_first_h1 (b : Builder) (op : Op) :
    (stepOp b op).first_h1_title =
      match op with
      | .heading t l =>
        if b.doc_started = true ∧ b.doc_ended = false ∧ l = 1 ∧
            b.first_h1_title = none ∧ b.explicit_title = none
        then some t else b.first_h1_title
      | _ => b.first_h1_title := by
  cases op with
  | heading t l =>
    simp only [stepOp, applyOp, add_heading]
    split_ifs with h1 h2 h3 h4 h5 <;> simp_all
  | _ =>
    simp only [stepOp, applyOp, start_list, add_list_item, end_list,
      add_paragraph, end_document]
    split_ifs <;> rfl

/-- `runOps` unfolding. -/
theorem runOps_cons (b : Builder) (op : Op) (ops : List Op) :
    runOps b (op :: ops) = runOps (stepOp b op) ops := rfl

/-- Operation sequences never change the explicit title. -/
theorem runOps_explicit_title (b : Builder) (ops : List Op) :
    (runOps b ops).explicit_title = b.explicit_title := by
  induction ops generalizing b with
  | nil => rfl
  | cons op ops ih => rw [runOps_cons, ih, stepOp_explicit_title]

/-- A captured first H1 survives any single operation. -/
theorem stepOp_first_h1_some (b : Builder) (x : String) (op : Op)
    (h : b.first_h1_title = some x) : (stepOp b op).first_h1_title = some x := by
  rw [stepOp_first_h1]
  cases op <;> simp [h]

/-- A captured first H1 survives any operation sequence. -/
theorem runOps_first_h1_some (b : Builder) (x : String) (ops : List Op)
    (h : b.first_h1_title = some x) : (runOps b ops).first_h1_title = some x := by
  induction ops generalizing b with
  | nil => exact h
  | cons op ops ih => rw [runOps_cons]; exact ih _ (stepOp_first_h1_some b x op h)

/-- With an explicit title present, one operation never captures a first H1. -/
theorem stepOp_first_h1_of_explicit (b : Builder) (op : Op)
    (h : b.explicit_title ≠ none) : (stepOp b op).first_h1_title = b.first_h1_title := by
  rw [stepOp_first_h1]
  cases op <;> simp [h]

/-- With an explicit title present, no operation sequence captures a
first H1. -/
theorem runOps_first_h1_of_explicit (b : Builder) (ops : List Op)
    (h : b.explicit_title ≠ none) : (runOps b ops).first_h1_title = b.first_h1_title := by
  induction ops generalizing b with
  | nil => rfl
  | cons op ops ih =>
    rw [runOps_cons, ih _ (by rw [stepOp_explicit_title]; exact h),
      stepOp_first_h1_of_explicit b op h]

/-- C4: `first_h1_title` is captured exactly by the first successful
level-1 `add_heading` performed while no explicit title is set and no
first H1 has been captured (first conjunct characterises each step); once
set it is never overwritten by any later operations (third conjunct); and
when an explicit title was supplied at `start_document` it is never set
at all (fourth conjunct). -/
theorem assembler_first_h1_capture :
    (∀ (b : Builder) (t : String) (l : Int),
      (stepOp b (Op.heading t l)).first_h1_title =
        if b.doc_started = true ∧ b.doc_ended = false ∧ l = 1 ∧
            b.first_h1_title = none ∧ b.explicit_title = none
        then some t else b.first_h1_title)
    ∧ (∀ (b : Builder) (op : Op), (∀ t l, op ≠ Op.heading t l) →
        (stepOp b op).first_h1_title = b.first_h1_title)
    ∧ (∀ (b : Builder) (x : String) (ops : List Op), b.first_h1_title = some x →
        (runOps b ops).first_h1_title = some x)
    ∧ (∀ (b0 : Builder) (t : String) (ops : List Op),
        (runOps (start_document b0 (some t)) ops).first_h1_title = none) := by
  refine ⟨fun b t l => stepOp_first_h1 b (.heading t l), fun b op hop => ?_,
    runOps_first_h1_some, fun b0 t ops => ?_⟩
  · rw [stepOp_first_h1]
    cases op with
    | heading t l => exact absurd rfl (hop t l)
    | _ => rfl
  · rw [runOps_first_h1_of_explicit _ _ (by simp [start_document])]
    rfl

/-- Witness for C4: capture on a fresh open document, persistence across a
later level-1 heading, and blocking by an explicit title. -/
theorem assembler_first_h1_capture_witness :
    (stepOp (start_document Builder.init none) (Op.heading "T" 1)).first_h1_title = some "T"
    ∧ (runOps { Builder.init with first_h1_title := some "X" }
        [Op.heading "Y" 1]).first_h1_title = some "X"
    ∧ (runOps (start_document Builder.init (some "T"))
        [Op.heading "A" 1]).first_h1_title = none :=
  ⟨(assembler_first_h1_capture.1 (start_document Builder.init none) "T" 1).trans (by decide),
   assembler_first_h1_capture.2.2.1 _ "X" [Op.heading "Y" 1] rfl,
   assembler_first_h1_capture.2.2.2 Builder.init "T" [Op.heading "A" 1]⟩

/-- C10: starting the document with the empty string stores `""` as the
explicit title, and because the capture guard tests `is None`, the empty
explicit title blocks first-H1 capture: after any level-1 heading — and
indeed after any operation sequence — `first_h1_title` stays unset. -/
theorem start_empty_title_blocks_h1 (b0 : Builder) (t : String) (ops : List Op) :
    (start_document b0 (some "")).explicit_title = some ""
    ∧ (stepOp (start_document b0 (some "")) (Op.heading t 1)).first_h1_title = none
    ∧ (runOps (start_document b0 (some "")) ops).first_h1_title = none := by
  refine ⟨rfl, ?_, ?_⟩
  · rw [stepOp_first_h1_of_explicit _ _ (by simp [start_document])]; rfl
  · rw [runOps_first_h1_of_explicit _ _ (by simp [start_document])]; rfl

/-! ### List auto-close and nesting invariant -/

/-- Strings of different lengths differ. -/
theorem ne_of_length_ne {s t : String} (h : s.length ≠ t.length) : s ≠ t :=
  fun e => h (by rw [e])

/-- A heading fragment is at least 8 characters long. -/
theorem headingFrag_length (l : Int) (t : String) : 8 ≤ (headingFrag l t).length := by
  have h1 : ("<h" : String).length = 2 := rfl
  have h2 : (">" : String).length = 1 := rfl
  have h3 : ("</h" : String).length = 3 := rfl
  have h4 : (">\n" : String).length = 2 := rfl
  simp [headingFrag, String.length_append, h1, h2, h3, h4]
  omega

/-- A heading fragment is never a list marker. -/
theorem fragMark_headingFrag (l : Int) (t : String) : fragMark (headingFrag l t) = none := by
  have h8 := headingFrag_length l t
  have hu : headingFrag l t ≠ "<ul>\n" :=
    ne_of_length_ne (by rw [show ("<ul>\n" : String).length = 5 from rfl]; omega)
  have hc : headingFrag l t ≠ "</ul>\n" :=
    ne_of_length_ne (by rw [show ("</ul>\n" : String).length = 6 from rfl]; omega)
  rw [fragMark, if_neg hu, if_neg hc]

/-- A paragraph fragment is at least 8 characters long. -/
theorem paragraphFrag_length (t : String) : 8 ≤ (paragraphFrag t).length := by
  have h1 : ("<p>" : String).length = 3 := rfl
  have h2 : ("</p>\n" : String).length = 5 := rfl
  simp [paragraphFrag, String.length_append, h1, h2]

/-- A paragraph fragment is never a list marker. -/
theorem fragMark_paragraphFrag (t : String) : fragMark (paragraphFrag t) = none := by
  have h8 := paragraphFrag_length t
  have hu : paragraphFrag t ≠ "<ul>\n" :=
    ne_of_length_ne (by rw [show ("<ul>\n" : String).length = 5 from rfl]; omega)
  have hc : paragraphFrag t ≠ "</ul>\n" :=
    ne_of_length_ne (by rw [show ("</ul>\n" : String).length = 6 from rfl]; omega)
  rw [fragMark, if_neg hu, if_neg hc]

/-- A list-item fragment is at least 10 characters long. -/
theorem listItemFrag_length (t : String) : 10 ≤ (listItemFrag t).length := by
  have h1 : ("<li>" : String).length = 4 := rfl
  have h2 : ("</li>\n" : String).length = 6 := rfl
  simp [listItemFrag, String.length_append, h1, h2]

/-- A list-item fragment is never a list marker. -/
theorem fragMark_listItemFrag (t : String) : fragMark (listItemFrag t) = none := by
  have h8 := listItemFrag_length t
  have hu : listItemFrag t ≠ "<ul>\n" :=
    ne_of_length_ne (by rw [show ("<ul>\n" : String).length = 5 from rfl]; omega)
  have hc : listItemFrag t ≠ "</ul>\n" :=
    ne_of_length_ne (by rw [show ("</ul>\n" : String).length = 6 from rfl]; omega)
  rw [fragMark, if_neg hu, if_neg hc]

/-- Markers distribute over appended fragment sequences. -/
theorem marks_append (fs gs : List String) : marks (fs ++ gs) = marks fs ++ marks gs := by
  simp [marks, List.filterMap_append]

/-- Effect of one appended marker on the alternation walk. -/
theorem chainFrom_append_one (o : Bool) (ms : List Bool) (m : Bool) :
    chainFrom o (ms ++ [m]) =
      match chainFrom o ms with
      | some p => if m = p then none else some m
      | none => none := by
  induction ms generalizing o with
  | nil => simp [chainFrom]
  | cons a ms ih =>
    by_cases h : a = o <;> simp [chainFrom, h, ih]

/-- `start_document` establishes the list-nesting invariant. -/
theorem listInv_start (b0 : Builder) (title : Option String) :
    listInv (start_document b0 title) := by
  simp [listInv, start_document, marks, chainFrom]

/-- Every operation preserves the list-nesting invariant. -/
theorem listInv_stepOp (b : Builder) (op : Op) (h : listInv b) : listInv (stepOp b op) := by
  have hmul : fragMark "<ul>\n" = some true := by decide
  have hmclose : fragMark "</ul>\n" = some false := by decide
  cases op with
  | heading t l =>
    simp only [stepOp, applyOp, add_heading]
    split_ifs with h1 h2 h3 h4 h5 h6
    all_goals try exact h
    all_goals
      unfold listInv at h ⊢
      simp_all [marks_append, marks, List.filterMap_cons, fragMark_headingFrag,
        hmclose, chainFrom_append_one]
  | listStart =>
    simp only [stepOp, applyOp, start_list]
    split_ifs with h1 h2 h3
    all_goals try exact h
    unfold listInv at h ⊢
    simp_all [marks_append, marks, List.filterMap_cons, hmul, chainFrom_append_one]
  | item t =>
    simp only [stepOp, applyOp, add_list_item]
    split_ifs with h1 h2 h3
    all_goals try exact h
    unfold listInv at h ⊢
    simp_all [marks_append, marks, List.filterMap_cons, fragMark_listItemFrag]
  | listEnd =>
    simp only [stepOp, applyOp, end_list]
    split_ifs with h1 h2 h3
    all_goals try exact h
    unfold listInv at h ⊢
    simp_all [marks_append, marks, List.filterMap_cons, hmclose, chainFrom_append_one]
  | para t =>
    simp only [stepOp, applyOp, add_paragraph]
    split_ifs with h1 h2 h3
    all_goals try exact h
    all_goals
      unfold listInv at h ⊢
      simp_all [marks_append, marks, List.filterMap_cons, fragMark_paragraphFrag,
        hmclose, chainFrom_append_one]
  | docEnd =>
    simp only [stepOp, applyOp, end_document]
    split_ifs with h1 h2 h3
    all_goals try exact h
    all_goals
      unfold listInv at h ⊢
      simp_all [marks_append, marks, List.filterMap_cons, hmclose, chainFrom_append_one]

/-- C5: with a list open, a successful `add_heading` or `add_paragraph`
appends exactly one `"</ul>\n"` fragment and clears `list_open` before
appending its own fragment, and a successful `end_document` appends
exactly one `"</ul>\n"` and clears `list_open` before sealing the
document; consequently (last two conjuncts) from `start_document` on, the
fragment sequence keeps the alternation invariant: never two list-open
markers without an intervening close, and never a duplicated close. -/
theorem list_autoClose :
    (∀ (b : Builder) (t : String) (l : Int) (b2 : Builder), b.list_open = true →
      add_heading b t l = .ok b2 →
      b2.fragments = b.fragments ++ ["</ul>\n", headingFrag l t] ∧ b2.list_open = false)
    ∧ (∀ (b : Builder) (t : String) (b2 : Builder), b.list_open = true →
      add_paragraph b t = .ok b2 →
      b2.fragments = b.fragments ++ ["</ul>\n", paragraphFrag t] ∧ b2.list_open = false)
    ∧ (∀ (b b2 : Builder), b.list_open = true → end_document b = .ok b2 →
      b2.fragments = b.fragments ++ ["</ul>\n"] ∧ b2.list_open = false ∧ b2.doc_ended = true)
    ∧ (∀ (b0 : Builder) (title : Option String), listInv (start_document b0 title))
    ∧ (∀ (b : Builder) (op : Op), listInv b → listInv (stepOp b op)) := by
  refine ⟨fun b t l b2 hl hok => ?_, fun b t b2 hl hok => ?_, fun b b2 hl hok => ?_,
    listInv_start, listInv_stepOp⟩
  · simp only [add_heading] at hok
    split_ifs at hok with h1 h2 h3 h4 <;> simp_all <;> subst hok <;> simp
  · simp only [add_paragraph] at hok
    split_ifs at hok with h1 h2 <;> simp_all <;> subst hok <;> simp
  · simp only [end_document] at hok
    split_ifs at hok with h1 h2 <;> simp_all <;> subst hok <;> simp

/-- Witness for C5: `end_document` on a concrete open-list state, and the
invariant after a concrete `start_list`. -/
theorem list_autoClose_witness :
    (∃ b2, end_document { Builder.init with doc_started := true, list_open := true, fragments := ["<ul>\n"] } = .ok b2
      ∧ (b2.fragments = ["<ul>\n"] ++ ["</ul>\n"] ∧ b2.list_open = false ∧ b2.doc_ended = true))
    ∧ listInv (stepOp (start_document Builder.init none) Op.listStart) := by
  refine ⟨⟨{ Builder.init with doc_started := true, doc_ended := true, fragments := ["<ul>\n", "</ul>\n"] }, ?_, ?_⟩, ?_⟩
  · decide
  · exact list_autoClose.2.2.1
      { Builder.init with doc_started := true, list_open := true, fragments := ["<ul>\n"] }
      _ rfl (by decide)
  · exact list_autoClose.2.2.2.2 _ _ (list_autoClose.2.2.2.1 Builder.init none)

/-! ### Classification of hash-and-whitespace-only lines -/

theorem dropWhile_append_all {p : Char → Bool} {l1 l2 : List Char} (h : ∀ c ∈ l1, p c = true) :
    (l1 ++ l2).dropWhile p = l2.dropWhile p := by
  induction l1 with
  | nil => rfl
  | cons a l ih =>
    simp [List.dropWhile_cons, h a (by simp), ih (fun c hc => h c (by simp [hc]))]

theorem dropWhile_all {p : Char → Bool} {l : List Char} (h : ∀ c ∈ l, p c = true) :
    l.dropWhile p = [] := by
  induction l with
  | nil => rfl
  | cons a l ih => simp [List.dropWhile_cons, h a (by simp), ih (fun c hc => h c (by simp [hc]))]

theorem takeWhile_hash_replicate (k : Nat) (ws : List Char) (hws : ws ≠ [])
    (hsp : ∀ c ∈ ws, pyIsSpace c = true) :
    (List.replicate k '#' ++ ws).takeWhile (fun c => c == '#') = List.replicate k '#' := by
  induction k with
  | zero =>
    simp only [List.replicate_zero, List.nil_append]
    cases ws with
    | nil => exact absurd rfl hws
    | cons w ws2 =>
      have hspw : pyIsSpace w = true := hsp w (by simp)
      have hw : (w == '#') = false := by
        cases hq : (w == '#')
        · rfl
        · rw [show w = '#' from by simpa using hq] at hspw
          exact absurd hspw (by decide)
      simp [List.takeWhile_cons, hw]
  | succ k ih =>
    simp [List.replicate_succ, List.takeWhile_cons, ih]

theorem matchHeading_hash_ws (k : Nat) (ws : List Char) (h1 : 1 ≤ k) (h6 : k ≤ 6)
    (hws : ws ≠ []) (hsp : ∀ c ∈ ws, pyIsSpace c = true) :
    matchHeading (String.mk (List.replicate k '#' ++ ws)) = some (k, "") := by
  unfold matchHeading
  dsimp only
  have htake := takeWhile_hash_replicate k ws hws hsp
  have htoList : (String.mk (List.replicate k '#' ++ ws)).toList = List.replicate k '#' ++ ws := rfl
  rw [htoList, htake, List.length_replicate, if_pos ⟨h1, h6⟩]
  have hdrop : (List.replicate k '#' ++ ws).drop k = ws := by
    have hd := List.drop_left (List.replicate k '#') ws
    simp only [List.length_replicate] at hd
    exact hd
  rw [hdrop]
  cases ws with
  | nil => exact absurd rfl hws
  | cons w ws2 =>
    simp [hsp w (by simp), dropWhile_all hsp]

theorem parse_hash_ws_line (k : Nat) (ws : List Char) (h1 : 1 ≤ k) (h6 : k ≤ 6)
    (hws : ws ≠ []) (hsp : ∀ c ∈ ws, pyIsSpace c = true ∧ c ≠ '\n') (b0 : Builder) :
    (parse_lines b0 [String.mk (List.replicate k '#' ++ ws)]).map Builder.fragments =
      .ok [headingFrag (Int.ofNat k) ""] := by
  have hsp1 : ∀ c ∈ ws, pyIsSpace c = true := fun c hc => (hsp c hc).1
  obtain ⟨k2, rfl⟩ : ∃ k2, k = k2 + 1 := ⟨k - 1, by omega⟩
  -- the raw line carries no trailing newline
  have hstrip : stripTrailNL (String.mk (List.replicate (k2 + 1) '#' ++ ws)) =
      String.mk (List.replicate (k2 + 1) '#' ++ ws) := by
    unfold stripTrailNL
    have hrev : (List.replicate (k2 + 1) '#' ++ ws).reverse.dropWhile (fun c => c == '\n') =
        (List.replicate (k2 + 1) '#' ++ ws).reverse := by
      rw [List.reverse_append]
      cases hr : ws.reverse with
      | nil => exact absurd (by simpa using congrArg List.reverse hr) hws
      | cons a as =>
        have ha : a ∈ ws := by
          have h2 : a ∈ ws.reverse := by rw [hr]; simp
          simpa using h2
        have hna : (a == '\n') = false := by
          cases hq : (a == '\n') with
          | false => rfl
          | true => exact absurd (by simpa using hq) (hsp a ha).2
        simp [List.dropWhile_cons, hna]
    have h3 : (String.mk (List.replicate (k2 + 1) '#' ++ ws)).toList =
        List.replicate (k2 + 1) '#' ++ ws := rfl
    rw [h3, hrev, List.reverse_reverse]
  -- the stripped line is the hash run, which is nonempty
  have hfront : (List.replicate (k2 + 1) '#' ++ ws).dropWhile pyIsSpace =
      List.replicate (k2 + 1) '#' ++ ws := by
    simp [List.replicate_succ, List.dropWhile_cons, show pyIsSpace '#' = false from rfl]
  have hpystrip : pyStrip (String.mk (List.replicate (k2 + 1) '#' ++ ws)) =
      String.mk (List.replicate (k2 + 1) '#') := by
    unfold pyStrip
    have h3 : (String.mk (List.replicate (k2 + 1) '#' ++ ws)).toList =
        List.replicate (k2 + 1) '#' ++ ws := rfl
    rw [h3, hfront, List.reverse_append]
    rw [dropWhile_append_all (by intro c hc; exact hsp1 c (by simpa using hc))]
    rw [List.reverse_replicate]
    simp only [List.replicate_succ, List.dropWhile_cons, show pyIsSpace '#' = false from rfl,
      Bool.false_eq_true, if_false]
    rw [← List.replicate_succ, List.reverse_replicate]
  have hne : ¬ (pyStrip (String.mk (List.replicate (k2 + 1) '#' ++ ws)) = "") := by
    rw [hpystrip]
    intro he
    have : List.replicate (k2 + 1) '#' = ([] : List Char) := congrArg String.toList he
    simp [List.replicate_succ] at this
  have hlstrip : pyLstrip (String.mk (List.replicate (k2 + 1) '#' ++ ws)) =
      String.mk (List.replicate (k2 + 1) '#' ++ ws) := by
    unfold pyLstrip
    rw [show (String.mk (List.replicate (k2 + 1) '#' ++ ws)).toList =
        List.replicate (k2 + 1) '#' ++ ws from rfl, hfront]
  have hmatch := matchHeading_hash_ws (k2 + 1) ws h1 h6 hws hsp1
  have hrange : 1 ≤ Int.ofNat (k2 + 1) ∧ Int.ofNat (k2 + 1) ≤ 6 := by
    rw [show Int.ofNat (k2 + 1) = ((k2 + 1 : Nat) : Int) from rfl]
    exact ⟨by exact_mod_cast h1, by exact_mod_cast h6⟩
  have hri : render_inline (pyStrip "") = "" := by decide
  have hadd : add_heading (start_document b0 none) "" (Int.ofNat (k2 + 1)) =
      .ok { doc_started := true, doc_ended := false, fragments := [headingFrag (Int.ofNat (k2 + 1)) ""], list_open := false, explicit_title := none, first_h1_title := if Int.ofNat (k2 + 1) = 1 then some "" else none } := by
    unfold add_heading
    have h6i : ¬ ((6 : Int) < (k2 : Int) + 1) := by omega
    by_cases hk : k2 = 0
    · subst hk
      simp [start_document]
    · simp [start_document, hk, h6i]
  simp only [parse_lines, runLines, handle_line, hstrip, hlstrip, hmatch, if_neg hne,
    close_list_if_open, if_neg (show ¬((⟨start_document b0 none, false⟩ : DirState).in_list = true) by simp)]
  rw [hri, hadd]
  simp [end_document, Except.map]

/-- C9, amended: a non-blank line whose content is one to six `#`
characters followed by whitespace (non-newline, as line splitting leaves
none) and no text is classified by the block parser as a *heading with
empty text*, not as a paragraph: the source heading pattern's text group
is `(.*)` and may be empty, so the parser calls `add_heading` with the
inline-rendered empty remainder and level = number of `#`. -/
theorem hashOnly_line_heading_classification (k : Nat) (ws : List Char) (h1 : 1 ≤ k)
    (h6 : k ≤ 6) (hws : ws ≠ []) (hsp : ∀ c ∈ ws, pyIsSpace c = true ∧ c ≠ '\n')
    (b0 : Builder) :
    matchHeading (String.mk (List.replicate k '#' ++ ws)) = some (k, "")
    ∧ (parse_lines b0 [String.mk (List.replicate k '#' ++ ws)]).map Builder.fragments =
        .ok [headingFrag (Int.ofNat k) ""] :=
  ⟨matchHeading_hash_ws k ws h1 h6 hws (fun c hc => (hsp c hc).1),
   parse_hash_ws_line k ws h1 h6 hws hsp b0⟩

/-- Witness for the amended C9 at the concrete line `"# "`. -/
theorem hashOnly_line_heading_classification_witness :
    matchHeading (String.mk (List.replicate 1 '#' ++ [' '])) = some (1, "")
    ∧ (parse_lines Builder.init
        [String.mk (List.replicate 1 '#' ++ [' '])]).map Builder.fragments =
        .ok [headingFrag (Int.ofNat 1) ""] :=
  hashOnly_line_heading_classification 1 [' '] (by decide) (by decide) (by decide)
    (by decide) Builder.init
